import Mathlib

/-!
Shallow embedding of the Argobots tasklet subsystem (`src/task.c`) and
verification of its specification claims.

Machine integers are modelled as `Nat` with explicit reduction modulo
`2^32` where 32-bit overflow matters (`ABTD_atomic_fetch_add_uint32`);
pointers/handles are modelled as `Option`; collaborator calls (malloc,
mutex create/free, global pool registration, stream start) are modelled
by result parameters supplied to the operation, since their code lies
outside this file's source.
-/

namespace Argobots

/-- Error codes from the `ABT_*` status taxonomy used by `task.c`
(`ABT_SUCCESS`, `ABT_ERR_MEM`, `ABT_ERR_INV_TASK`, `ABT_ERR_TASK`);
`err_other` stands for any other non-success collaborator code. -/
inductive ErrCode where
  | success
  | err_mem
  | err_inv_task
  | err_task
  | err_other
deriving DecidableEq, Repr

/-- Task states `ABT_TASK_STATE_*` from the lifecycle state machine. -/
inductive TaskState where
  | created
  | delayed
  | running
  | completed
  | terminated
deriving DecidableEq, Repr

/-- Stream states: only `ABT_STREAM_STATE_CREATED` is distinguished by
`task.c` (line 98); every other state is collapsed into `running`. -/
inductive StreamState where
  | created
  | running
deriving DecidableEq, Repr

/-- Which scheduler factory built a work unit: the generic
`ABTI_unit_create_from_task` or a specific scheduler's
`u_create_from_task` (identified by scheduler id). -/
inductive FactoryTag where
  | generic
  | sched (sid : Nat)
deriving DecidableEq, Repr

/-- A work unit: the wrapper built around the task handle
(`p_newtask->unit`), recording which factory built it and the wrapped
task's id. -/
structure WorkUnit where
  factory : FactoryTag
  taskId : Nat
deriving DecidableEq, Repr

/-- The modulus of a `uint32_t` counter. -/
def uint32Mod : Nat := 4294967296

/-- The constant `ABTI_TASK_REQ_CANCEL`: the cancel bit in the task's 32-bit request
word. Its numeric value lives in a header outside `src/`; the spec only
requires it to be a fixed single bit, modelled here as bit 0. -/
def ABTI_TASK_REQ_CANCEL : Nat := 1

/-- The `ABTI_task` structure (fields as in `task.c` lines 50-56, 65,
68, 89, 92). `refcount` and `request` are `uint32_t` values (< 2^32 is
an invariant maintained by the operations). `unit` is `none` while the
field is still uninitialized (before lines 68/92). `mutex` records
whether the task's mutex was created. -/
structure ABTI_task where
  id : Nat
  p_name : Option String
  state : TaskState
  refcount : Nat
  request : Nat
  f_task : Nat
  p_arg : Nat
  p_stream : Option Nat
  unit : Option WorkUnit
  mutex : Bool
deriving DecidableEq, Repr

/-- A task handle `ABT_task`: `none` is `ABT_TASK_NULL`
(`ABTI_task_get_ptr` maps the null handle to the null pointer and any
other handle to the object, `task.c` lines 396-405). -/
def ABT_task := Option ABTI_task

/-- An `ABTI_stream` as seen by `ABT_task_create`: its id, its
scheduler's id, and its state. -/
structure ABTI_stream where
  id : Nat
  schedId : Nat
  state : StreamState
deriving DecidableEq, Repr

/-! ### Retain / Release (task.c lines 217-272) -/

/-- Model of `ABT_task_retain`: null handle yields `ABT_ERR_INV_TASK` with no
mutation; otherwise `ABTD_atomic_fetch_add_uint32(&refcount, 1)`, a
32-bit add that wraps modulo 2^32. Returns the status and the task
content afterwards. -/
def ABT_task_retain (task : Option ABTI_task) : ErrCode × Option ABTI_task :=
  match task with
  | none => (ErrCode.err_inv_task, none)
  | some t => (ErrCode.success, some { t with refcount := (t.refcount + 1) % uint32Mod })

/-- Model of `ABT_task_release`: null handle yields `ABT_ERR_INV_TASK` with no
mutation; otherwise the CAS retry loop of lines 260-265. Run without
interference the CAS succeeds on its first attempt, so the loop's
effect is: observe `refcount`; if it is 0 exit without storing,
otherwise store `refcount - 1`. Nothing else of the task is touched and
the task is never deallocated. -/
def ABT_task_release (task : Option ABTI_task) : ErrCode × Option ABTI_task :=
  match task with
  | none => (ErrCode.err_inv_task, none)
  | some t =>
    if t.refcount > 0 then
      (ErrCode.success, some { t with refcount := t.refcount - 1 })
    else
      (ErrCode.success, some t)

/-! ### Cancel (task.c lines 178-204) -/

/-- Model of `ABT_task_cancel`: first the caller-context check
(`ABTI_local_get_thread() == NULL` means the caller has no thread
context, i.e. is a task, and yields `ABT_ERR_TASK`); then the null
handle check (`ABT_ERR_INV_TASK`); then
`ABTD_atomic_fetch_or_uint32(&request, ABTI_TASK_REQ_CANCEL)`.
`callerThread` is the result of `ABTI_local_get_thread()`. -/
def ABT_task_cancel (callerThread : Option Unit) (task : Option ABTI_task) :
    ErrCode × Option ABTI_task :=
  if callerThread = none then
    (ErrCode.err_task, task)
  else
    match task with
    | none => (ErrCode.err_inv_task, none)
    | some t =>
      (ErrCode.success, some { t with request := t.request ||| ABTI_TASK_REQ_CANCEL })

/-- How C code tests the cancel flag: `request & ABTI_TASK_REQ_CANCEL`
is nonzero. -/
def cancelRequested (t : ABTI_task) : Bool :=
  t.request &&& ABTI_TASK_REQ_CANCEL != 0

/-! ### Introspection and naming (task.c lines 301-392) -/

/-- Model of `ABT_task_get_state`: null handle yields `ABT_ERR_INV_TASK` and
does not write the output; otherwise writes the state field. The second
component models what was stored through the `state` out-pointer
(`none` = not written). -/
def ABT_task_get_state (task : Option ABTI_task) : ErrCode × Option TaskState :=
  match task with
  | none => (ErrCode.err_inv_task, none)
  | some t => (ErrCode.success, some t.state)

/-- Model of `ABT_task_set_name`: null handle yields `ABT_ERR_INV_TASK` with no
mutation. Otherwise (under the task's mutex) the old name is freed, a
new buffer is allocated (`allocOk` models the `ABTU_malloc` outcome):
on success the name is copied in; on failure `p_name` has already been
set to the null allocation result and `ABT_ERR_MEM` is returned. -/
def ABT_task_set_name (task : Option ABTI_task) (name : String) (allocOk : Bool) :
    ErrCode × Option ABTI_task :=
  match task with
  | none => (ErrCode.err_inv_task, none)
  | some t =>
    if allocOk then
      (ErrCode.success, some { t with p_name := some name })
    else
      (ErrCode.err_mem, some { t with p_name := none })

/-- Model of `ABT_task_get_name`: null handle yields `ABT_ERR_INV_TASK` writing
neither output. With a valid handle the code runs
`strlen(p_task->p_name)` unguarded (line 381): when `p_name` is null
(its value after creation, before any successful `set_name`) this is
undefined behavior, modelled as the outer `none`. Otherwise it writes
the length, and copies the name only when the `name` buffer argument is
non-null (`nameBuf`). Result components: status, value written to
`*len`, string copied into `name`. -/
def ABT_task_get_name (task : Option ABTI_task) (nameBuf : Bool) :
    Option (ErrCode × Option Nat × Option String) :=
  match task with
  | none => some (ErrCode.err_inv_task, none, none)
  | some t =>
    match t.p_name with
    | none => none
    | some s =>
      some (ErrCode.success, some s.length, if nameBuf then some s else none)

/-! ### Create (task.c lines 34-113) -/

/-- Outcomes of the collaborator calls `ABT_task_create` makes, plus
the fresh id `ABTI_task_get_new_id` returns: `ABTU_malloc` success,
`ABT_mutex_create` status, `ABTI_global_add_task` status, the sizes of
the global stream pools read at lines 76-77, and the statuses of
`ABTI_stream_start_any` / `ABTI_stream_start`. -/
structure CreateEnv where
  newId : Nat
  allocOk : Bool
  mutexCreateErr : ErrCode
  globalAddErr : ErrCode
  activeStreams : Nat
  createdStreams : Nat
  streamStartAnyErr : ErrCode
  streamStartErr : ErrCode
deriving DecidableEq, Repr

/-- What a call to `ABT_task_create` did: the returned status, the
value stored through the `newtask` out-pointer (`none` = the pointer
cell was never written; `some h` = the handle `h` was stored), the task
object as it exists after the call (allocated tasks are returned even
when the call failed and leaked them), whether the task was added to
the global pool, which scheduler's pool (if any) received the unit, and
which stream-start paths ran. -/
structure CreateResult where
  errno : ErrCode
  written : Option (Option ABTI_task)
  task : Option ABTI_task
  pushedGlobal : Bool
  pushedSched : Option Nat
  startedAny : Bool
  startedStream : Option Nat
deriving DecidableEq, Repr

/-- Model of `ABT_task_create stream task_func arg newtask`. `requestHandle`
models `newtask != NULL`; the function/argument payload is opaque
(`fn`, `arg`). Faithful to lines 42-112: on malloc failure the handle
cell (when present) is nulled and `ABT_ERR_MEM` returned; every later
failure jumps to `fn_fail` without writing the handle cell; the global
branch sets state `CREATED`, no stream, the generic unit, and registers
in the global pool, then possibly starts an idle stream; the
stream-bound branch sets state `DELAYED`, the stream, the scheduler's
unit, pushes into the scheduler's pool, and starts the stream if it is
still `CREATED`; on success the handle is stored iff requested. -/
def ABT_task_create (env : CreateEnv) (stream : Option ABTI_stream)
    (fn arg : Nat) (requestHandle : Bool) : CreateResult :=
  if ¬ env.allocOk then
    { errno := ErrCode.err_mem
      written := if requestHandle then some none else none
      task := none, pushedGlobal := false, pushedSched := none
      startedAny := false, startedStream := none }
  else
    let t0 : ABTI_task :=
      { id := env.newId, p_name := none, state := TaskState.created
        refcount := if requestHandle then 1 else 0, request := 0
        f_task := fn, p_arg := arg, p_stream := none, unit := none
        mutex := false }
    if env.mutexCreateErr ≠ ErrCode.success then
      { errno := env.mutexCreateErr, written := none, task := some t0
        pushedGlobal := false, pushedSched := none
        startedAny := false, startedStream := none }
    else
      let t0 := { t0 with mutex := true }
      match stream with
      | none =>
        let t1 := { t0 with p_stream := none
                            unit := some ⟨FactoryTag.generic, env.newId⟩ }
        if env.globalAddErr ≠ ErrCode.success then
          { errno := env.globalAddErr, written := none, task := some t1
            pushedGlobal := false, pushedSched := none
            startedAny := false, startedStream := none }
        else if env.activeStreams ≤ 1 ∧ env.createdStreams > 0 then
          if env.streamStartAnyErr ≠ ErrCode.success then
            { errno := env.streamStartAnyErr, written := none, task := some t1
              pushedGlobal := true, pushedSched := none
              startedAny := true, startedStream := none }
          else
            { errno := ErrCode.success
              written := if requestHandle then some (some t1) else none
              task := some t1, pushedGlobal := true, pushedSched := none
              startedAny := true, startedStream := none }
        else
          { errno := ErrCode.success
            written := if requestHandle then some (some t1) else none
            task := some t1, pushedGlobal := true, pushedSched := none
            startedAny := false, startedStream := none }
      | some st =>
        let t1 := { t0 with state := TaskState.delayed
                            p_stream := some st.id
                            unit := some ⟨FactoryTag.sched st.schedId, env.newId⟩ }
        if st.state = StreamState.created then
          if env.streamStartErr ≠ ErrCode.success then
            { errno := env.streamStartErr, written := none, task := some t1
              pushedGlobal := false, pushedSched := some st.schedId
              startedAny := false, startedStream := some st.id }
          else
            { errno := ErrCode.success
              written := if requestHandle then some (some t1) else none
              task := some t1, pushedGlobal := false, pushedSched := some st.schedId
              startedAny := false, startedStream := some st.id }
        else
          { errno := ErrCode.success
            written := if requestHandle then some (some t1) else none
            task := some t1, pushedGlobal := false, pushedSched := some st.schedId
            startedAny := false, startedStream := none }

/-! ### Free (task.c lines 128-168 and 418-442) -/

/-- What a call to `ABT_task_free` did: the returned status, the
content of the caller's handle cell afterwards, whether the task struct
was deallocated (`ABTU_free(p_task)`, line 435), whether the unit was
removed from the stream's deads pool (lines 146-153), the task state
observed when the wait loop of lines 142-144 exited (`none` = the loop
was never reached), and the task's refcount at deallocation time
(`none` = deallocation never reached). -/
structure FreeResult where
  errno : ErrCode
  handleOut : Option ABTI_task
  structFreed : Bool
  removedFromDeads : Bool
  observedAtReturn : Option TaskState
  refcountAtFree : Option Nat
deriving DecidableEq, Repr

/-- Model of `ABT_task_free`. Here `callerThread` is `ABTI_local_get_thread()` (a
null result means the caller is a task and yields `ABT_ERR_TASK`
before anything is touched). `handle` is the content of the caller's
`ABT_task *task` cell; a null handle dereferences the null pointer at
line 142 — undefined behavior, modelled as the outer `none`.
`stateAt n` is the task's state as observed at the n-th iteration of
the wait loop (the owning stream mutates it between yields); `hterm`
states the task eventually terminates — without it the loop never
returns, which the spec declares deliberate. The loop exits at the
first observation of `TERMINATED` (`Nat.find hterm`). The refcount is
never decremented: `ABTI_task_free` receives it as-is.
`mutexFreeErr` models `ABT_mutex_free` (line 432): on its failure
`ABTI_task_free` returns early, `ABTU_free(p_task)` and the nulling of
the caller's handle are both skipped. -/
def ABT_task_free (callerThread : Option Unit) (handle : Option ABTI_task)
    (stateAt : Nat → TaskState) (hterm : ∃ n, stateAt n = TaskState.terminated)
    (mutexFreeErr : ErrCode) : Option FreeResult :=
  if callerThread = none then
    some { errno := ErrCode.err_task, handleOut := handle
           structFreed := false, removedFromDeads := false
           observedAtReturn := none, refcountAtFree := none }
  else
    match handle with
    | none => none
    | some t =>
      let n := Nat.find hterm
      let removed := decide (t.refcount > 0)
      if mutexFreeErr ≠ ErrCode.success then
        some { errno := mutexFreeErr, handleOut := some t
               structFreed := false, removedFromDeads := removed
               observedAtReturn := some (stateAt n), refcountAtFree := some t.refcount }
      else
        some { errno := ErrCode.success, handleOut := none
               structFreed := true, removedFromDeads := removed
               observedAtReturn := some (stateAt n), refcountAtFree := some t.refcount }

/-! ### Concurrent model of the release CAS loop (task.c lines 260-265)

Each concurrent `ABT_task_release` call is a process executing

    while ((refcount = p_task->refcount) > 0)
        if (CAS(&p_task->refcount, refcount, refcount - 1) == refcount) break;

The atomic actions are the read of `refcount` (together with the loop
condition test on the value read) and the CAS. The counter is modelled
as an `Int` so that non-negativity is a real statement: a decrement
stored below zero in this model is exactly a `uint32_t` wraparound in
the source. -/

/-- Local state of one release process: not yet past the loop head
(`pending`), holding a value `r` read from the counter and about to
CAS (`readVal r`), or finished (`done`). -/
inductive RelProc where
  | pending
  | readVal (r : Int)
  | done
deriving DecidableEq, Repr

/-- Shared state of an interleaved execution: the task's refcount and
the local state of each release process. -/
structure RelState where
  refcount : Int
  procs : List RelProc
deriving DecidableEq, Repr

/-- Initial state: counter `M`, `N` release processes at the loop head. -/
def relInit (M : Int) (N : Nat) : RelState :=
  ⟨M, List.replicate N RelProc.pending⟩

/-- One atomic step of some process `i`:
* `read` — process at the loop head reads a nonzero counter and records it;
* `readZero` — process at the loop head reads 0 and exits the loop
  without storing anything;
* `casSucc` — the CAS finds the counter still equal to the recorded
  `r`, stores `r - 1`, and the process breaks out of the loop;
* `casFail` — the CAS finds the counter changed; the process retries
  from the loop head. -/
inductive RelStep : RelState → RelState → Prop where
  | read (s : RelState) (i : Nat) (h : s.procs[i]? = some RelProc.pending)
      (hz : s.refcount ≠ 0) :
      RelStep s ⟨s.refcount, s.procs.set i (RelProc.readVal s.refcount)⟩
  | readZero (s : RelState) (i : Nat) (h : s.procs[i]? = some RelProc.pending)
      (hz : s.refcount = 0) :
      RelStep s ⟨s.refcount, s.procs.set i RelProc.done⟩
  | casSucc (s : RelState) (i : Nat) (r : Int)
      (h : s.procs[i]? = some (RelProc.readVal r)) (heq : s.refcount = r) :
      RelStep s ⟨r - 1, s.procs.set i RelProc.done⟩
  | casFail (s : RelState) (i : Nat) (r : Int)
      (h : s.procs[i]? = some (RelProc.readVal r)) (hne : s.refcount ≠ r) :
      RelStep s ⟨s.refcount, s.procs.set i RelProc.pending⟩

/-- Invariant: the counter is non-negative, and every value a process
recorded from the counter and may yet CAS on is positive (the loop
condition admitted it). -/
def RelInv (s : RelState) : Prop :=
  0 ≤ s.refcount ∧ ∀ p ∈ s.procs, ∀ r : Int, p = RelProc.readVal r → 0 < r

theorem relInv_init (M : Int) (N : Nat) (hM : 0 ≤ M) : RelInv (relInit M N) := by
  refine ⟨hM, ?_⟩
  intro p hp r hr
  rw [List.eq_of_mem_replicate hp] at hr
  exact absurd hr (by simp)

theorem relInv_step {s s' : RelState} (hinv : RelInv s) (hstep : RelStep s s') :
    RelInv s' := by
  obtain ⟨hpos, hread⟩ := hinv
  cases hstep with
  | read i h hz =>
    refine ⟨hpos, ?_⟩
    intro p hp r hr
    rcases List.mem_or_eq_of_mem_set hp with hp' | hp'
    · exact hread p hp' r hr
    · subst hp'
      cases hr
      exact lt_of_le_of_ne hpos (Ne.symm hz)
  | readZero i h hz =>
    refine ⟨hpos, ?_⟩
    intro p hp r hr
    rcases List.mem_or_eq_of_mem_set hp with hp' | hp'
    · exact hread p hp' r hr
    · subst hp'
      exact absurd hr (by simp)
  | casSucc i r h heq =>
    have hrpos : 0 < r :=
      hread (RelProc.readVal r) (List.getElem?_mem h) r rfl
    refine ⟨show (0 : Int) ≤ r - 1 by omega, ?_⟩
    intro p hp r' hr'
    rcases List.mem_or_eq_of_mem_set hp with hp' | hp'
    · exact hread p hp' r' hr'
    · subst hp'
      exact absurd hr' (by simp)
  | casFail i r h hne =>
    refine ⟨hpos, ?_⟩
    intro p hp r' hr'
    rcases List.mem_or_eq_of_mem_set hp with hp' | hp'
    · exact hread p hp' r' hr'
    · subst hp'
      exact absurd hr' (by simp)

theorem relInv_reachable {s0 s : RelState} (h0 : RelInv s0)
    (h : Relation.ReflTransGen RelStep s0 s) : RelInv s := by
  induction h with
  | refl => exact h0
  | tail _ hstep ih => exact relInv_step ih hstep

/-- A step taken from a state satisfying the invariant never increases
the counter, and from a state where the counter is 0 it leaves it 0. -/
theorem relStep_refcount_le {s s' : RelState}
    (hstep : RelStep s s') : s'.refcount ≤ s.refcount := by
  cases hstep with
  | read i h hz => exact le_refl _
  | readZero i h hz => exact le_refl _
  | casSucc i r h heq =>
    show r - 1 ≤ s.refcount
    omega
  | casFail i r h hne => exact le_refl _

theorem relStep_zero_stays {s s' : RelState} (hinv : RelInv s)
    (hz : s.refcount = 0) (hstep : RelStep s s') : s'.refcount = 0 := by
  cases hstep with
  | read i h hz' => exact hz
  | readZero i h hz' => exact hz
  | casSucc i r h heq =>
    have hrpos : 0 < r :=
      hinv.2 (RelProc.readVal r) (List.getElem?_mem h) r rfl
    omega
  | casFail i r h hne => exact hz

/-! ### Concrete objects used by the witnesses -/

/-- A concrete live task with two references and no cancel request. -/
def sampleTask : ABTI_task :=
  { id := 7, p_name := some "worker-1", state := TaskState.running
    refcount := 2, request := 0, f_task := 1, p_arg := 2
    p_stream := some 3, unit := some ⟨FactoryTag.generic, 7⟩, mutex := true }

/-- A task whose refcount sits at the `uint32_t` maximum. -/
def tMax : ABTI_task :=
  { id := 9, p_name := none, state := TaskState.running
    refcount := 4294967295, request := 0, f_task := 0, p_arg := 0
    p_stream := none, unit := some ⟨FactoryTag.generic, 9⟩, mutex := true }

/-- A task whose cancel bit is already set. -/
def tCancelled : ABTI_task :=
  { sampleTask with request := ABTI_TASK_REQ_CANCEL }

/-- A freshly created task whose name was never set. -/
def unnamedTask : ABTI_task :=
  { id := 1, p_name := none, state := TaskState.created
    refcount := 1, request := 0, f_task := 0, p_arg := 0
    p_stream := none, unit := some ⟨FactoryTag.generic, 1⟩, mutex := true }

/-- A creation environment in which every collaborator call succeeds. -/
def envOk : CreateEnv :=
  { newId := 5, allocOk := true, mutexCreateErr := ErrCode.success
    globalAddErr := ErrCode.success, activeStreams := 2, createdStreams := 0
    streamStartAnyErr := ErrCode.success, streamStartErr := ErrCode.success }

/-- A creation environment in which `ABT_mutex_create` fails. -/
def envMutexFail : CreateEnv :=
  { envOk with mutexCreateErr := ErrCode.err_other }

/-- A state history of a task that is running at the first observation
and terminated from the second on. -/
def freeSchedule : Nat → TaskState :=
  fun n => if n = 0 then TaskState.running else TaskState.terminated

/-- ORing the cancel bit into any request word leaves the bit set. -/
theorem or_cancel_bit_set (r : Nat) :
    (r ||| ABTI_TASK_REQ_CANCEL) &&& ABTI_TASK_REQ_CANCEL ≠ 0 := by
  simp [ABTI_TASK_REQ_CANCEL, Nat.and_one_is_mod]

/-! ### Claims -/

/-- C1: for every interleaving of N concurrent `ABT_task_release` calls
on an initial refcount M ≥ 0, the counter never goes below 0 (in the
`uint32_t` source this is the absence of wraparound); from a state
where the counter is observed 0 every further step leaves it 0; and a
single release only adjusts the counter — it returns success with every
other field of the task intact and never deallocates the task. -/
theorem task_release_never_negative (M : Int) (N : Nat) (s s' : RelState)
    (t : ABTI_task) (hM : 0 ≤ M)
    (hreach : Relation.ReflTransGen RelStep (relInit M N) s) :
    0 ≤ s.refcount ∧
    (s.refcount = 0 → RelStep s s' → s'.refcount = 0) ∧
    ABT_task_release (some t) =
      (ErrCode.success, some { t with refcount := t.refcount - 1 }) := by
  have hinv := relInv_reachable (relInv_init M N hM) hreach
  refine ⟨hinv.1, fun hz hstep => relStep_zero_stays hinv hz hstep, ?_⟩
  cases t with
  | mk id pn st rc rq ft pa ps un mx =>
    simp [ABT_task_release]
    omega

theorem task_release_never_negative_w :
    0 ≤ (relInit 1 2).refcount ∧
    ((relInit 1 2).refcount = 0 →
      RelStep (relInit 1 2) (relInit 1 2) → (relInit 1 2).refcount = 0) ∧
    ABT_task_release (some sampleTask) =
      (ErrCode.success, some { sampleTask with refcount := sampleTask.refcount - 1 }) :=
  task_release_never_negative 1 2 (relInit 1 2) (relInit 1 2) sampleTask
    (by decide) Relation.ReflTransGen.refl

/-- C2 counterexample: at the starting refcount 4294967295 (the
`uint32_t` maximum) the retain's `fetch_add` wraps the counter to 0 and
the following release observes 0 and leaves it there, so the pair does
not restore the starting value: it yields 0, not 4294967295. -/
theorem retain_release_wraps :
    tMax.refcount = 4294967295 ∧
    (ABT_task_release (ABT_task_retain (some tMax)).2).2.map ABTI_task.refcount =
      some 0 ∧
    (0 : Nat) ≠ 4294967295 := by
  refine ⟨rfl, rfl, by decide⟩

/-- C2 (amended): for every non-null task handle whose refcount is
below the `uint32_t` maximum (so the retain's 32-bit add does not
wrap), `ABT_task_retain` followed by `ABT_task_release` leaves the
refcount equal to its value before the pair, and both calls succeed. -/
theorem retain_release_restores (t : ABTI_task) (h : t.refcount + 1 < uint32Mod) :
    (ABT_task_release (ABT_task_retain (some t)).2).2.map ABTI_task.refcount =
      some t.refcount ∧
    (ABT_task_retain (some t)).1 = ErrCode.success ∧
    (ABT_task_release (ABT_task_retain (some t)).2).1 = ErrCode.success := by
  have hmod : (t.refcount + 1) % uint32Mod = t.refcount + 1 := Nat.mod_eq_of_lt h
  simp [ABT_task_retain, ABT_task_release, hmod]

theorem retain_release_restores_w :
    (ABT_task_release (ABT_task_retain (some sampleTask)).2).2.map ABTI_task.refcount =
      some sampleTask.refcount ∧
    (ABT_task_retain (some sampleTask)).1 = ErrCode.success ∧
    (ABT_task_release (ABT_task_retain (some sampleTask)).2).1 = ErrCode.success :=
  retain_release_restores sampleTask (by decide)

/-- C3: every successful `ABT_task_create` call with no target stream
yields a task in state `CREATED`, with a null bound stream and a
work-unit built by the generic factory, pushed into the global pool
(and into no scheduler pool); with a target stream it yields a task in
state `DELAYED`, bound to that stream, with a work-unit built by that
stream's scheduler's factory, pushed into that scheduler's pool (and
not into the global pool). -/
theorem task_create_binding (env : CreateEnv) (stream : Option ABTI_stream)
    (fn arg : Nat) (rh : Bool) (st : ABTI_stream)
    (hsucc : (ABT_task_create env stream fn arg rh).errno = ErrCode.success) :
    (stream = none →
      (ABT_task_create env stream fn arg rh).task.map ABTI_task.state =
        some TaskState.created ∧
      (ABT_task_create env stream fn arg rh).task.map ABTI_task.p_stream =
        some none ∧
      (ABT_task_create env stream fn arg rh).task.map ABTI_task.unit =
        some (some ⟨FactoryTag.generic, env.newId⟩) ∧
      (ABT_task_create env stream fn arg rh).pushedGlobal = true ∧
      (ABT_task_create env stream fn arg rh).pushedSched = none) ∧
    (stream = some st →
      (ABT_task_create env stream fn arg rh).task.map ABTI_task.state =
        some TaskState.delayed ∧
      (ABT_task_create env stream fn arg rh).task.map ABTI_task.p_stream =
        some (some st.id) ∧
      (ABT_task_create env stream fn arg rh).task.map ABTI_task.unit =
        some (some ⟨FactoryTag.sched st.schedId, env.newId⟩) ∧
      (ABT_task_create env stream fn arg rh).pushedSched = some st.schedId ∧
      (ABT_task_create env stream fn arg rh).pushedGlobal = false) := by
  cases stream with
  | none =>
    refine ⟨fun _ => ?_, fun h => absurd h (by simp)⟩
    by_cases hA : env.allocOk <;>
      by_cases hB : env.mutexCreateErr = ErrCode.success <;>
      by_cases hC : env.globalAddErr = ErrCode.success <;>
      by_cases hD : env.activeStreams ≤ 1 ∧ env.createdStreams > 0 <;>
      by_cases hE : env.streamStartAnyErr = ErrCode.success <;>
      simp_all [ABT_task_create] <;>
      split_ifs <;> simp_all
  | some st2 =>
    refine ⟨fun h => absurd h (by simp), fun h => ?_⟩
    cases Option.some.inj h
    by_cases hA : env.allocOk <;>
      by_cases hB : env.mutexCreateErr = ErrCode.success <;>
      by_cases hF : st.state = StreamState.created <;>
      by_cases hG : env.streamStartErr = ErrCode.success <;>
      simp_all [ABT_task_create]

theorem task_create_binding_w :
    ((none : Option ABTI_stream) = none →
      (ABT_task_create envOk none 0 0 true).task.map ABTI_task.state =
        some TaskState.created ∧
      (ABT_task_create envOk none 0 0 true).task.map ABTI_task.p_stream =
        some none ∧
      (ABT_task_create envOk none 0 0 true).task.map ABTI_task.unit =
        some (some ⟨FactoryTag.generic, envOk.newId⟩) ∧
      (ABT_task_create envOk none 0 0 true).pushedGlobal = true ∧
      (ABT_task_create envOk none 0 0 true).pushedSched = none) ∧
    ((none : Option ABTI_stream) = some ⟨3, 4, StreamState.created⟩ →
      (ABT_task_create envOk none 0 0 true).task.map ABTI_task.state =
        some TaskState.delayed ∧
      (ABT_task_create envOk none 0 0 true).task.map ABTI_task.p_stream =
        some (some (3 : Nat)) ∧
      (ABT_task_create envOk none 0 0 true).task.map ABTI_task.unit =
        some (some ⟨FactoryTag.sched 4, envOk.newId⟩) ∧
      (ABT_task_create envOk none 0 0 true).pushedSched = some 4 ∧
      (ABT_task_create envOk none 0 0 true).pushedGlobal = false) :=
  task_create_binding envOk none 0 0 true ⟨3, 4, StreamState.created⟩ (by decide)

/-- C4: every successful `ABT_task_create` call yields a task whose
initial refcount is 1 when the caller passed a non-null output handle
argument and 0 when it did not (task.c line 53). -/
theorem task_create_refcount (env : CreateEnv) (stream : Option ABTI_stream)
    (fn arg : Nat) (rh : Bool)
    (hsucc : (ABT_task_create env stream fn arg rh).errno = ErrCode.success) :
    (ABT_task_create env stream fn arg rh).task.map ABTI_task.refcount =
      some (if rh then 1 else 0) := by
  cases stream with
  | none =>
    by_cases hA : env.allocOk <;>
      by_cases hB : env.mutexCreateErr = ErrCode.success <;>
      by_cases hC : env.globalAddErr = ErrCode.success <;>
      by_cases hD : env.activeStreams ≤ 1 ∧ env.createdStreams > 0 <;>
      by_cases hE : env.streamStartAnyErr = ErrCode.success <;>
      simp_all [ABT_task_create] <;>
      split_ifs <;> simp_all
  | some st' =>
    by_cases hA : env.allocOk <;>
      by_cases hB : env.mutexCreateErr = ErrCode.success <;>
      by_cases hF : st'.state = StreamState.created <;>
      by_cases hG : env.streamStartErr = ErrCode.success <;>
      simp_all [ABT_task_create]

theorem task_create_refcount_w :
    (ABT_task_create envOk none 0 0 true).task.map ABTI_task.refcount =
      some (if true then 1 else 0) :=
  task_create_refcount envOk none 0 0 true (by decide)

/-- C5: `ABT_task_free` called from a non-task context (the caller has
a thread) on a task returns only after the task's state has been
observed to be `TERMINATED` (the wait loop exits on the first such
observation); on success it deallocates the task object and stores the
null sentinel in the caller's handle cell; and it never decrements the
task's refcount — deallocation receives the refcount exactly as it was
at entry. -/
theorem task_free_waits_terminated (t : ABTI_task) (stateAt : Nat → TaskState)
    (hterm : ∃ n, stateAt n = TaskState.terminated) :
    (ABT_task_free (some ()) (some t) stateAt hterm ErrCode.success).map
        FreeResult.observedAtReturn = some (some TaskState.terminated) ∧
    (ABT_task_free (some ()) (some t) stateAt hterm ErrCode.success).map
        FreeResult.errno = some ErrCode.success ∧
    (ABT_task_free (some ()) (some t) stateAt hterm ErrCode.success).map
        FreeResult.structFreed = some true ∧
    (ABT_task_free (some ()) (some t) stateAt hterm ErrCode.success).map
        FreeResult.handleOut = some none ∧
    (ABT_task_free (some ()) (some t) stateAt hterm ErrCode.success).map
        FreeResult.refcountAtFree = some (some t.refcount) := by
  have hspec : stateAt (Nat.find hterm) = TaskState.terminated := Nat.find_spec hterm
  simp [ABT_task_free, hspec]

theorem task_free_waits_terminated_w :
    (ABT_task_free (some ()) (some sampleTask) freeSchedule ⟨1, rfl⟩
        ErrCode.success).map
        FreeResult.observedAtReturn = some (some TaskState.terminated) ∧
    (ABT_task_free (some ()) (some sampleTask) freeSchedule ⟨1, rfl⟩
        ErrCode.success).map
        FreeResult.errno = some ErrCode.success ∧
    (ABT_task_free (some ()) (some sampleTask) freeSchedule ⟨1, rfl⟩
        ErrCode.success).map
        FreeResult.structFreed = some true ∧
    (ABT_task_free (some ()) (some sampleTask) freeSchedule ⟨1, rfl⟩
        ErrCode.success).map
        FreeResult.handleOut = some none ∧
    (ABT_task_free (some ()) (some sampleTask) freeSchedule ⟨1, rfl⟩
        ErrCode.success).map
        FreeResult.refcountAtFree = some (some sampleTask.refcount) :=
  task_free_waits_terminated sampleTask freeSchedule ⟨1, rfl⟩

/-- C6: `ABT_task_free` invoked from within a task's own execution
context (no thread in the caller's local state) fails with
`ABT_ERR_TASK` — the code's illegal-caller-context error — and
performs no mutation: the caller's handle cell keeps its value, the
task struct is not deallocated, nothing is removed from any pool, and
the task itself (state, refcount, name) is never touched, the wait
loop never even being reached. -/
theorem task_free_from_task_context (handle : Option ABTI_task)
    (stateAt : Nat → TaskState) (hterm : ∃ n, stateAt n = TaskState.terminated)
    (mutexFreeErr : ErrCode) :
    ABT_task_free none handle stateAt hterm mutexFreeErr =
      some { errno := ErrCode.err_task, handleOut := handle
             structFreed := false, removedFromDeads := false
             observedAtReturn := none, refcountAtFree := none } := by
  simp [ABT_task_free]

theorem task_free_from_task_context_w :
    ABT_task_free none (some sampleTask) freeSchedule ⟨1, rfl⟩ ErrCode.success =
      some { errno := ErrCode.err_task, handleOut := some sampleTask
             structFreed := false, removedFromDeads := false
             observedAtReturn := none, refcountAtFree := none } :=
  task_free_from_task_context (some sampleTask) freeSchedule ⟨1, rfl⟩
    ErrCode.success

/-- C7 counterexample: a failing `ABT_task_create` call does not always
set the caller's output handle to the null sentinel. When
`ABT_mutex_create` fails, the call returns that error but jumps to
`fn_fail` without ever writing through `newtask` (the handle cell is
left unwritten, not nulled); only the allocation-failure branch writes
the null sentinel. -/
theorem create_mutex_fail_handle_untouched :
    (ABT_task_create envMutexFail none 0 0 true).errno = ErrCode.err_other ∧
    ErrCode.err_other ≠ ErrCode.success ∧
    (ABT_task_create envMutexFail none 0 0 true).written = none ∧
    (none : Option (Option ABTI_task)) ≠ some none := by
  refine ⟨rfl, by decide, rfl, by decide⟩

/-- C7 (amended): every failing `ABT_task_create` call short-circuits
with a non-success status and never stores a valid handle: on
allocation failure the output handle cell (when the caller provided
one) is written with the null sentinel, while on later collaborator
failures (mutex creation, global-pool registration, stream start) the
cell is left unwritten. -/
theorem create_failure_handle_policy (env : CreateEnv)
    (stream : Option ABTI_stream) (fn arg : Nat) (rh : Bool)
    (hfail : (ABT_task_create env stream fn arg rh).errno ≠ ErrCode.success) :
    (ABT_task_create env stream fn arg rh).written =
      (if env.allocOk then none else if rh then some none else none) := by
  cases stream with
  | none =>
    by_cases hA : env.allocOk <;>
      by_cases hB : env.mutexCreateErr = ErrCode.success <;>
      by_cases hC : env.globalAddErr = ErrCode.success <;>
      by_cases hD : env.activeStreams ≤ 1 ∧ env.createdStreams > 0 <;>
      by_cases hE : env.streamStartAnyErr = ErrCode.success <;>
      simp_all [ABT_task_create]
  | some st' =>
    by_cases hA : env.allocOk <;>
      by_cases hB : env.mutexCreateErr = ErrCode.success <;>
      by_cases hF : st'.state = StreamState.created <;>
      by_cases hG : env.streamStartErr = ErrCode.success <;>
      simp_all [ABT_task_create]

theorem create_failure_handle_policy_w :
    (ABT_task_create envMutexFail none 0 0 true).written =
      (if envMutexFail.allocOk then none else if true then some none else none) :=
  create_failure_handle_policy envMutexFail none 0 0 true (by decide)

/-- C8: the cancel bit is monotonic and cancellation does not touch the
state. For any live task `t` whose cancel bit is set, none of the
subsystem's mutating operations (cancel again, retain, release,
set_name — with either allocation outcome) clears it; and for any task
`u`, `ABT_task_cancel` leaves the state exactly as it was (the state
still progresses through the normal path, it is not forced to
`TERMINATED`) while setting the cancel bit. -/
theorem cancel_request_monotonic (t u : ABTI_task) (s : String) (ok : Bool)
    (hc : cancelRequested t = true) :
    ((ABT_task_cancel (some ()) (some t)).2.map cancelRequested = some true) ∧
    ((ABT_task_retain (some t)).2.map cancelRequested = some true) ∧
    ((ABT_task_release (some t)).2.map cancelRequested = some true) ∧
    ((ABT_task_set_name (some t) s ok).2.map cancelRequested = some true) ∧
    ((ABT_task_cancel (some ()) (some u)).2.map ABTI_task.state = some u.state) ∧
    ((ABT_task_cancel (some ()) (some u)).2.map
        (fun v => v.request &&& ABTI_TASK_REQ_CANCEL ≠ 0) = some True) := by
  refine ⟨?_, ?_, ?_, ?_, ?_, ?_⟩
  · simp [ABT_task_cancel, cancelRequested, or_cancel_bit_set]
  · simp_all [ABT_task_retain, cancelRequested]
  · by_cases h : t.refcount > 0 <;> simp_all [ABT_task_release, cancelRequested]
  · cases ok <;> simp_all [ABT_task_set_name, cancelRequested]
  · simp [ABT_task_cancel]
  · simp [ABT_task_cancel, or_cancel_bit_set]

theorem cancel_request_monotonic_w :
    ((ABT_task_cancel (some ()) (some tCancelled)).2.map cancelRequested =
      some true) ∧
    ((ABT_task_retain (some tCancelled)).2.map cancelRequested = some true) ∧
    ((ABT_task_release (some tCancelled)).2.map cancelRequested = some true) ∧
    ((ABT_task_set_name (some tCancelled) "x" true).2.map cancelRequested =
      some true) ∧
    ((ABT_task_cancel (some ()) (some sampleTask)).2.map ABTI_task.state =
      some sampleTask.state) ∧
    ((ABT_task_cancel (some ()) (some sampleTask)).2.map
        (fun v => v.request &&& ABTI_TASK_REQ_CANCEL ≠ 0) = some True) :=
  cancel_request_monotonic tCancelled sampleTask "x" true (by decide)

/-- C9 counterexample: `ABT_task_cancel` does not return the
invalid-task error for a null handle when invoked from a task context —
the caller-context check runs first, so it returns `ABT_ERR_TASK`, a
distinct code from `ABT_ERR_INV_TASK` (still an error, still no
mutation). -/
theorem cancel_null_from_task_context :
    (ABT_task_cancel none none).1 = ErrCode.err_task ∧
    ErrCode.err_task ≠ ErrCode.err_inv_task ∧
    (ABT_task_cancel none none).2 = none := by
  refine ⟨rfl, by decide, rfl⟩

/-- C9 (amended): passing the null handle to `get_state`, `get_name`,
`set_name`, `retain` or `release` returns `ABT_ERR_INV_TASK` and
performs no mutation (no output written, no task touched). For
`cancel`, the same holds when it is invoked from a non-task context;
from a task context its caller-context check fires first and it
returns `ABT_ERR_TASK` — in every case a defined error and no
mutation, never undefined behavior. -/
theorem null_handle_invalid_task :
    ABT_task_get_state none = (ErrCode.err_inv_task, none) ∧
    (∀ b, ABT_task_get_name none b = some (ErrCode.err_inv_task, none, none)) ∧
    (∀ s ok, ABT_task_set_name none s ok = (ErrCode.err_inv_task, none)) ∧
    ABT_task_retain none = (ErrCode.err_inv_task, none) ∧
    ABT_task_release none = (ErrCode.err_inv_task, none) ∧
    ABT_task_cancel (some ()) none = (ErrCode.err_inv_task, none) ∧
    ABT_task_cancel none none = (ErrCode.err_task, none) :=
  ⟨rfl, fun _ => rfl, fun _ _ => rfl, rfl, rfl, rfl, rfl⟩

/-- C10: for every task whose name was never set (`p_name` is null, its
value straight out of `ABT_task_create`, line 51), `ABT_task_get_name`
with a valid handle reaches `strlen` on the null name pointer —
undefined behavior, the model's `none` — with no guard for the
absent-name case; and every task object `ABT_task_create` constructs
does start with a null name. -/
theorem get_name_unset_name_ub (t : ABTI_task) (b : Bool) (env : CreateEnv)
    (stream : Option ABTI_stream) (fn arg : Nat) (rh : Bool)
    (hn : t.p_name = none) :
    ABT_task_get_name (some t) b = none ∧
    ((ABT_task_create env stream fn arg rh).task.all
      fun u => u.p_name == none) = true := by
  constructor
  · simp [ABT_task_get_name, hn]
  · cases stream with
    | none =>
      by_cases hA : env.allocOk <;>
        by_cases hB : env.mutexCreateErr = ErrCode.success <;>
        by_cases hC : env.globalAddErr = ErrCode.success <;>
        by_cases hD : env.activeStreams ≤ 1 ∧ env.createdStreams > 0 <;>
        by_cases hE : env.streamStartAnyErr = ErrCode.success <;>
        simp_all [ABT_task_create] <;>
        split_ifs <;> simp_all
    | some st' =>
      by_cases hA : env.allocOk <;>
        by_cases hB : env.mutexCreateErr = ErrCode.success <;>
        by_cases hF : st'.state = StreamState.created <;>
        by_cases hG : env.streamStartErr = ErrCode.success <;>
        simp_all [ABT_task_create]

theorem get_name_unset_name_ub_w :
    ABT_task_get_name (some unnamedTask) true = none ∧
    ((ABT_task_create envOk none 0 0 true).task.all
      fun u => u.p_name == none) = true :=
  get_name_unset_name_ub unnamedTask true envOk none 0 0 true rfl

end Argobots
